import Mathlib

set_option maxRecDepth 10000

/-!
Verification development for the OLS notebook
(`Supervised Learning/ordinary_least_squares_in_python.ipynb`).

The notebook loads the 16-row Longley dataset, fits ordinary least
squares models of Employed on GNP (with and without an intercept),
predicts on linspace grids and plots the resulting lines.  All
computations are embedded here over `ℚ` (exact arithmetic standing in
for the floating-point computations of the source): vectors are lists
of rationals, matrices are lists of rows, and the least-squares solve
is the normal-equations solve on the design matrix (the source uses
design matrices of one or two columns only).
-/

namespace OlsNotebook

/-- Dot product of two rational vectors (truncating at the shorter). -/
def dot (xs ys : List ℚ) : ℚ := (List.zipWith (· * ·) xs ys).sum

/-- Matrix–vector product, rows times coefficient vector. -/
def matVecMul (X : List (List ℚ)) (β : List ℚ) : List ℚ := X.map (fun r => dot r β)

/-- Number of columns of a row-major matrix (length of the first row). -/
def numCols (X : List (List ℚ)) : ℕ := (X.head?.getD []).length

/-- The j-th column of a row-major matrix (out-of-range entries read 0). -/
def col (X : List (List ℚ)) (j : ℕ) : List ℚ := X.map (fun r => r.getD j 0)

/-- `sm.add_constant` on a row-major matrix: prepend a constant-1 column. -/
def addConstant (X : List (List ℚ)) : List (List ℚ) := X.map (fun r => 1 :: r)

/-- The one-predictor design matrix with a constant column: rows `[1, xᵢ]`. -/
def designWithConst (x : List ℚ) : List (List ℚ) := addConstant (x.map (fun v => [v]))

/-- Mean of a list of rationals. -/
def mean (xs : List ℚ) : ℚ := xs.sum / (xs.length : ℚ)

/-- Centered total sum of squares of a response vector. -/
def sst (ys : List ℚ) : ℚ :=
  dot (ys.map (fun v => v - mean ys)) (ys.map (fun v => v - mean ys))

/-- Determinant of the 2×2 normal-equations matrix of the with-constant
one-predictor design: `n·Σx² − (Σx)²`. -/
def det2 (x : List ℚ) : ℚ := (x.length : ℚ) * dot x x - x.sum * x.sum

/-- Normal-equations least-squares solve (`XᵗXβ = Xᵗy`) for the design
shapes actually used by the notebook: one column (no intercept) or two
columns (Cramer's rule on the 2×2 system). -/
def olsSolve (y : List ℚ) (X : List (List ℚ)) : List ℚ :=
  if numCols X = 1 then
    [dot (col X 0) y / dot (col X 0) (col X 0)]
  else if numCols X = 2 then
    [(dot (col X 1) (col X 1) * dot (col X 0) y
        - dot (col X 0) (col X 1) * dot (col X 1) y) /
       (dot (col X 0) (col X 0) * dot (col X 1) (col X 1)
        - dot (col X 0) (col X 1) * dot (col X 0) (col X 1)),
     (dot (col X 0) (col X 0) * dot (col X 1) y
        - dot (col X 0) (col X 1) * dot (col X 0) y) /
       (dot (col X 0) (col X 0) * dot (col X 1) (col X 1)
        - dot (col X 0) (col X 1) * dot (col X 0) (col X 1))]
  else []

/-- The immutable record produced by the fit (`est.fit()`): coefficient
vector, in-sample fitted values, residuals, residual degrees of freedom
and the coefficient of determination `R² = 1 − SS_res/SS_tot`. -/
structure FitResult where
  params : List ℚ
  fittedvalues : List ℚ
  resid : List ℚ
  df_resid : ℕ
  rsquared : ℚ
deriving Repr, DecidableEq

/-- Residuals of the least-squares fit of `y` on `X`. -/
def olsResid (y : List ℚ) (X : List (List ℚ)) : List ℚ :=
  List.zipWith (fun a b => a - b) y (matVecMul X (olsSolve y X))

/-- Fit Procedure: least-squares fit of response `y` on design `X`. -/
def olsFit (y : List ℚ) (X : List (List ℚ)) : FitResult :=
  { params := olsSolve y X
    fittedvalues := matVecMul X (olsSolve y X)
    resid := olsResid y X
    df_resid := X.length - numCols X
    rsquared := 1 - dot (olsResid y X) (olsResid y X) / sst y }

/-- Error taxonomy of the Predictor. -/
inductive PredictError where
  | dimensionMismatch
  | columnNotFound
deriving Repr, DecidableEq

/-- Array-based Predictor (`est.predict(X′)` on a raw matrix): checks
that every row of `X′` has as many entries as there are fitted
coefficients, and returns `X′β`; otherwise a dimension-mismatch error. -/
def predictArr (β : List ℚ) (X : List (List ℚ)) : Except PredictError (List ℚ) :=
  if X.all (fun r => r.length == β.length) then
    Except.ok (matVecMul X β)
  else
    Except.error PredictError.dimensionMismatch

/-- A pandas-style data frame: a list of named numeric columns. -/
structure DataFrame where
  cols : List (String × List ℚ)
deriving Repr, DecidableEq

/-- Look up a column by name. -/
def DataFrame.getCol (df : DataFrame) (name : String) : Option (List ℚ) :=
  (df.cols.find? (fun c => c.1 == name)).map (fun c => c.2)

/-- Number of rows of a data frame (length of its first column). -/
def DataFrame.nrows (df : DataFrame) : ℕ :=
  ((df.cols.head?.map (fun c => c.2)).getD []).length

/-- `sm.add_constant` on a data frame: prepend a `const` column of 1.0. -/
def addConstantDF (df : DataFrame) : DataFrame :=
  ⟨("const", List.replicate df.nrows 1) :: df.cols⟩

/-- A one-predictor model formula, e.g. `Employed ~ GNP` (with intercept)
or `Employed ~ GNP - 1` (without). -/
structure Formula where
  response : String
  predictor : String
  hasIntercept : Bool
deriving Repr, DecidableEq

/-- The formula `Employed ~ GNP`. -/
def interceptFormula : Formula := ⟨"Employed", "GNP", true⟩

/-- The formula `Employed ~ GNP - 1`. -/
def noInterceptFormula : Formula := ⟨"Employed", "GNP", false⟩

/-- Rows of the design matrix a formula builds from a predictor column:
`[1, g]` with an intercept, `[g]` without. -/
def formulaRows (f : Formula) (v : List ℚ) : List (List ℚ) :=
  if f.hasIntercept then v.map (fun g => [1, g]) else v.map (fun g => [g])

/-- Design matrix a formula builds from a data frame (empty if the
predictor column is absent). -/
def formulaDesign (f : Formula) (df : DataFrame) : List (List ℚ) :=
  formulaRows f ((df.getCol f.predictor).getD [])

/-- `smf.ols(formula, data=df).fit()`: fit the formula's design. -/
def olsFormulaFit (f : Formula) (df : DataFrame) : FitResult :=
  olsFit ((df.getCol f.response).getD []) (formulaDesign f df)

/-- Formula-based Predictor: `fit.predict(df)` on a formula-fitted model
rebuilds the design matrix from the named predictor column of the new
data frame (ignoring any other columns) and returns its product with the
coefficient vector; it fails only when the predictor column is absent. -/
def formulaPredict (f : Formula) (β : List ℚ) (df : DataFrame) :
    Except PredictError (List ℚ) :=
  match df.getCol f.predictor with
  | none => Except.error PredictError.columnNotFound
  | some v => Except.ok (matVecMul (formulaRows f v) β)

/-- `np.linspace lo hi num`: `num` evenly spaced points from `lo` to `hi`. -/
def linspace (lo hi : ℚ) (num : ℕ) : List ℚ :=
  (List.range num).map (fun k => lo + (k : ℚ) * (hi - lo) / ((num : ℚ) - 1))

/-- Minimum of a list (pandas `.min()`); 0 on the empty list. -/
def listMin (xs : List ℚ) : ℚ :=
  match xs with
  | [] => 0
  | h :: t => t.foldl min h

/-- Maximum of a list (pandas `.max()`); 0 on the empty list. -/
def listMax (xs : List ℚ) : ℚ :=
  match xs with
  | [] => 0
  | h :: t => t.foldl max h

/-- Per-column count of missing cells (`df.isna().sum()`). -/
def isnaSum (t : List (String × List (Option ℚ))) : List ℕ :=
  t.map (fun c => (c.2.filter (fun o => o.isNone)).length)

/-- Modelled from the spec: the data file `longley.csv` read by the
notebook is not part of the repository source, so the loaded Observation
Table is reproduced here from the spec's description — the 16-row
Longley dataset of US macroeconomic data, one row per year 1947–1962,
indexed by year, with numeric columns including the response
`Employed` and the predictor `GNP`, and no missing values.  Cells are
`Option ℚ` so that the notebook's completeness check (`df.isna`) is
expressible. -/
def notebookRaw : List (String × List (Option ℚ)) :=
  [ ("GNP.deflator",
      [some 83, some 88.5, some 88.2, some 89.5, some 96.2, some 98.1,
       some 99, some 100, some 101.2, some 104.6, some 108.4, some 110.8,
       some 112.6, some 114.2, some 115.7, some 116.9]),
    ("GNP",
      [some 234.289, some 259.426, some 258.054, some 284.599, some 328.975,
       some 346.999, some 365.385, some 363.112, some 397.469, some 419.180,
       some 442.769, some 444.546, some 482.704, some 502.601, some 518.173,
       some 554.894]),
    ("Unemployed",
      [some 235.6, some 232.5, some 368.2, some 335.1, some 209.9,
       some 193.2, some 187, some 357.8, some 290.4, some 282.2,
       some 293.6, some 468.1, some 381.3, some 393.1, some 480.6,
       some 400.7]),
    ("Armed.Forces",
      [some 159, some 145.6, some 161.6, some 165, some 309.9, some 359.4,
       some 354.7, some 335, some 304.8, some 285.7, some 279.8, some 263.7,
       some 255.2, some 251.4, some 257.2, some 282.7]),
    ("Population",
      [some 107.608, some 108.632, some 109.773, some 110.929, some 112.075,
       some 113.270, some 115.094, some 116.219, some 117.388, some 118.734,
       some 120.445, some 121.950, some 123.366, some 125.368, some 127.852,
       some 130.081]),
    ("Year",
      [some 1947, some 1948, some 1949, some 1950, some 1951, some 1952,
       some 1953, some 1954, some 1955, some 1956, some 1957, some 1958,
       some 1959, some 1960, some 1961, some 1962]),
    ("Employed",
      [some 60.323, some 61.122, some 60.171, some 61.187, some 63.221,
       some 63.639, some 64.989, some 63.761, some 66.019, some 67.857,
       some 68.169, some 66.513, some 68.655, some 69.564, some 69.331,
       some 70.551]) ]

/-- The Observation Table `df` the notebook works with. -/
def notebookDF : DataFrame :=
  ⟨notebookRaw.map (fun c => (c.1, c.2.reduceOption))⟩

/-- `y = df.Employed`. -/
def longleyEmployed : List ℚ := (notebookDF.getCol "Employed").getD []

/-- `df.GNP`. -/
def longleyGNP : List ℚ := (notebookDF.getCol "GNP").getD []

/-- `X = sm.add_constant(df.GNP)`: the training design matrix. -/
def trainX : List (List ℚ) := designWithConst longleyGNP

/-- `est = sm.OLS(y, X).fit()`: the array-based with-intercept fit. -/
def estArrayFit : FitResult := olsFit longleyEmployed trainX

/-- The 100-point GNP grid `np.linspace(X.GNP.min(), X.GNP.max(), 100)`. -/
def gnpGrid : List ℚ := linspace (listMin longleyGNP) (listMax longleyGNP) 100

/-- `X_prime = sm.add_constant(np.linspace(...)[:, np.newaxis])`. -/
def xPrimeMat : List (List ℚ) := addConstant (gnpGrid.map (fun v => [v]))

/-- `y_hat = est.predict(X_prime)` (values of the with-intercept
array-based prediction on the grid). -/
def yHat : List ℚ := (predictArr estArrayFit.params xPrimeMat).toOption.getD []

/-- `est = smf.ols(formula='Employed ~ GNP', data=df).fit()`: the
formula-based with-intercept fit (rebinds `est` in the notebook). -/
def estFormulaFit : FitResult := olsFormulaFit interceptFormula notebookDF

/-- `est_no_int = smf.ols(formula='Employed ~ GNP - 1', data=df).fit()`. -/
def estNoIntFit : FitResult := olsFormulaFit noInterceptFormula notebookDF

/-- `X_prime_1 = sm.add_constant(pd.DataFrame({'GNP': np.linspace(...)}))`:
the two-column (const, GNP) prediction frame. -/
def xPrime1 : DataFrame := addConstantDF ⟨[("GNP", gnpGrid)]⟩

/-- `y_hat_int = est.predict(X_prime_1)` (the raw Predictor call). -/
def yHatIntE : Except PredictError (List ℚ) :=
  formulaPredict interceptFormula estFormulaFit.params xPrime1

/-- `y_hat_no_int = est_no_int.predict(X_prime_1)` (the raw call). -/
def yHatNoIntE : Except PredictError (List ℚ) :=
  formulaPredict noInterceptFormula estNoIntFit.params xPrime1

/-- The values of `y_hat_int`. -/
def yHatInt : List ℚ := yHatIntE.toOption.getD []

/-- The values of `y_hat_no_int`. -/
def yHatNoInt : List ℚ := yHatNoIntE.toOption.getD []

/-- One `splt.plot(xs, ys, ...)` call: the drawn curve. -/
structure PlotLine where
  xdata : List ℚ
  ydata : List ℚ
deriving Repr, DecidableEq

/-- The regression line of the "With intercept" subplot:
`splt.plot(X_prime[:, 1], y_hat_int, 'r', alpha=0.9)`. -/
def withInterceptLine : PlotLine := ⟨col xPrimeMat 1, yHatInt⟩

/-- The regression line of the "Without intercept" subplot:
`splt.plot(X_prime[:, 1], y_hat_no_int, 'r', alpha=0.9)`. -/
def withoutInterceptLine : PlotLine := ⟨col xPrimeMat 1, yHatNoInt⟩

/-- The array-interface with-intercept fitting path
`sm.OLS(df.Employed, sm.add_constant(df.GNP)).fit()`, as a function of
the input table. -/
def fitArrayPath (df : DataFrame) : FitResult :=
  olsFit ((df.getCol "Employed").getD []) (designWithConst ((df.getCol "GNP").getD []))

section Lemmas

/-- Dot product of cons cells. -/
lemma dot_cons (a b : ℚ) (as bs : List ℚ) :
    dot (a :: as) (b :: bs) = a * b + dot as bs := by
  simp [dot]

/-- A dot product of a vector with itself is nonnegative. -/
lemma dot_self_nonneg (xs : List ℚ) : 0 ≤ dot xs xs := by
  induction xs with
  | nil => simp [dot]
  | cons a as ih =>
    rw [dot_cons]
    have := mul_self_nonneg a
    linarith

/-- Sum of an elementwise difference of equally long lists. -/
lemma sum_zipWith_sub (ys zs : List ℚ) (h : ys.length = zs.length) :
    (List.zipWith (fun a b => a - b) ys zs).sum = ys.sum - zs.sum := by
  induction ys generalizing zs with
  | nil =>
    cases zs with
    | nil => simp
    | cons b bs => simp at h
  | cons a as ih =>
    cases zs with
    | nil => simp at h
    | cons b bs =>
      simp only [List.zipWith_cons_cons, List.sum_cons, List.length_cons] at *
      rw [ih bs (by omega)]
      ring

/-- Dot product with an all-ones vector sums the other vector. -/
lemma dot_ones_left (n : ℕ) (ys : List ℚ) (h : ys.length = n) :
    dot (List.replicate n 1) ys = ys.sum := by
  induction ys generalizing n with
  | nil =>
    cases n with
    | zero => simp [dot]
    | succ m => simp at h
  | cons b bs ih =>
    cases n with
    | zero => simp at h
    | succ m =>
      rw [List.replicate_succ, dot_cons, ih m (by simpa using h), List.sum_cons]
      ring

/-- Dot product of two all-ones vectors counts the entries. -/
lemma dot_ones_ones (n : ℕ) :
    dot (List.replicate n (1 : ℚ)) (List.replicate n 1) = (n : ℚ) := by
  induction n with
  | zero => simp [dot]
  | succ m ih =>
    rw [List.replicate_succ, dot_cons, ih]
    push_cast
    ring

/-- Sum of an affine image of a list. -/
lemma sum_map_affine (c e : ℚ) (xs : List ℚ) :
    (xs.map (fun v => c + v * e)).sum = (xs.length : ℚ) * c + e * xs.sum := by
  induction xs with
  | nil => simp
  | cons a as ih =>
    simp only [List.map_cons, List.sum_cons, List.length_cons]
    rw [ih]
    push_cast
    ring

/-- Column 0 of the with-constant design is all ones. -/
lemma col_designWithConst_zero (x : List ℚ) :
    col (designWithConst x) 0 = List.replicate x.length 1 := by
  induction x with
  | nil => simp [col, designWithConst, addConstant]
  | cons a t ih =>
    simp only [col, designWithConst, addConstant, List.map_cons, List.map_map] at ih ⊢
    rw [List.length_cons, List.replicate_succ]
    simp only [List.cons.injEq]
    exact ⟨rfl, ih⟩

/-- Column 1 of the with-constant design is the predictor. -/
lemma col_designWithConst_one (x : List ℚ) :
    col (designWithConst x) 1 = x := by
  induction x with
  | nil => simp [col, designWithConst, addConstant]
  | cons a t ih =>
    simp only [col, designWithConst, addConstant, List.map_cons, List.map_map] at ih ⊢
    simp only [List.cons.injEq]
    refine ⟨by simp, ih⟩

/-- The with-constant design of a nonempty predictor has two columns. -/
lemma numCols_designWithConst_cons (a : ℚ) (t : List ℚ) :
    numCols (designWithConst (a :: t)) = 2 := by
  simp [numCols, designWithConst, addConstant]

/-- Scalar form of the normal-equations solution on the with-constant
one-predictor design. -/
lemma olsSolve_designWithConst (x y : List ℚ) (hx : x ≠ []) (h : y.length = x.length) :
    olsSolve y (designWithConst x) =
      [(dot x x * y.sum - x.sum * dot x y) / det2 x,
       ((x.length : ℚ) * dot x y - x.sum * y.sum) / det2 x] := by
  obtain ⟨a, t, rfl⟩ := List.exists_cons_of_ne_nil hx
  unfold olsSolve
  rw [if_neg (by rw [numCols_designWithConst_cons]; omega),
      if_pos (numCols_designWithConst_cons a t)]
  rw [col_designWithConst_zero, col_designWithConst_one,
      dot_ones_ones, dot_ones_left _ _ rfl, dot_ones_left _ _ h]
  rw [det2]

/-- The with-constant design applied to a two-entry coefficient vector
is an affine map of the predictor. -/
lemma matVecMul_designWithConst (x : List ℚ) (a b : ℚ) :
    matVecMul (designWithConst x) [a, b] = x.map (fun v => a + v * b) := by
  simp [matVecMul, designWithConst, addConstant, List.map_map, Function.comp,
    dot_cons, dot]

/-- With an intercept column in the design, the least-squares residuals
sum to exactly zero (whenever the normal equations are nonsingular). -/
lemma resid_sum_withConst (x y : List ℚ) (h : y.length = x.length) (hd : det2 x ≠ 0) :
    (olsFit y (designWithConst x)).resid.sum = 0 := by
  have hx : x ≠ [] := by
    rintro rfl
    simp [det2, dot] at hd
  simp only [olsFit, olsResid]
  rw [olsSolve_designWithConst x y hx h, matVecMul_designWithConst]
  rw [sum_zipWith_sub _ _ (by simpa using h), sum_map_affine]
  simp only [det2] at hd ⊢
  field_simp
  ring

/-- Centered sum of squares, expanded. -/
lemma dot_map_sub (c : ℚ) (ys : List ℚ) :
    dot (ys.map (fun v => v - c)) (ys.map (fun v => v - c))
      = dot ys ys - 2 * c * ys.sum + (ys.length : ℚ) * c ^ 2 := by
  induction ys with
  | nil => simp [dot]
  | cons a as ih =>
    simp only [List.map_cons, List.length_cons, List.sum_cons, dot_cons]
    rw [ih]
    push_cast
    ring

/-- Residual sum of squares of an affine predictor, expanded into the
moment sums of the data. -/
lemma dot_resid_expand (c e : ℚ) (ys xs : List ℚ) (h : ys.length = xs.length) :
    dot (List.zipWith (fun p q => p - q) ys (xs.map (fun v => c + v * e)))
        (List.zipWith (fun p q => p - q) ys (xs.map (fun v => c + v * e)))
      = dot ys ys - 2 * c * ys.sum - 2 * e * dot xs ys + (xs.length : ℚ) * c ^ 2
        + 2 * c * e * xs.sum + e ^ 2 * dot xs xs := by
  induction ys generalizing xs with
  | nil =>
    cases xs with
    | nil => simp [dot]
    | cons q qs => simp at h
  | cons p ps ih =>
    cases xs with
    | nil => simp at h
    | cons q qs =>
      simp only [List.map_cons, List.zipWith_cons_cons, List.length_cons,
        List.sum_cons, dot_cons] at *
      rw [ih qs (by omega)]
      push_cast
      ring

/-- `sst` expanded into moment sums. -/
lemma sst_expand (ys : List ℚ) :
    sst ys = dot ys ys - 2 * mean ys * ys.sum + (ys.length : ℚ) * mean ys ^ 2 := by
  rw [sst, dot_map_sub]

/-- A nonempty-predictor observation count is positive. -/
lemma length_pos_of_ne_nil (x : List ℚ) (hx : x ≠ []) : 0 < ((x.length : ℚ)) := by
  have : 0 < x.length := List.length_pos.mpr hx
  exact_mod_cast this

/-- With an intercept column and nonsingular, non-degenerate data, the
coefficient of determination lies in the closed unit interval. -/
lemma rsquared_bounds (x y : List ℚ) (h : y.length = x.length)
    (hd : 0 < det2 x) (hst : 0 < sst y) :
    0 ≤ (olsFit y (designWithConst x)).rsquared ∧
      (olsFit y (designWithConst x)).rsquared ≤ 1 := by
  have hx : x ≠ [] := by
    rintro rfl
    simp [det2, dot] at hd
  have hn : 0 < ((x.length : ℚ)) := length_pos_of_ne_nil x hx
  have hssr0 : 0 ≤ dot (olsResid y (designWithConst x)) (olsResid y (designWithConst x)) :=
    dot_self_nonneg _
  have hexp : dot (olsResid y (designWithConst x)) (olsResid y (designWithConst x))
      = dot y y - 2 * ((dot x x * y.sum - x.sum * dot x y) / det2 x) * y.sum
        - 2 * (((x.length : ℚ) * dot x y - x.sum * y.sum) / det2 x) * dot x y
        + (x.length : ℚ) * ((dot x x * y.sum - x.sum * dot x y) / det2 x) ^ 2
        + 2 * ((dot x x * y.sum - x.sum * dot x y) / det2 x)
            * (((x.length : ℚ) * dot x y - x.sum * y.sum) / det2 x) * x.sum
        + (((x.length : ℚ) * dot x y - x.sum * y.sum) / det2 x) ^ 2 * dot x x := by
    rw [olsResid, olsSolve_designWithConst x y hx h, matVecMul_designWithConst]
    exact dot_resid_expand _ _ y x h
  have hkey : sst y
        - dot (olsResid y (designWithConst x)) (olsResid y (designWithConst x))
      = ((x.length : ℚ) * dot x y - x.sum * y.sum) ^ 2 / ((x.length : ℚ) * det2 x) := by
    rw [hexp, sst_expand, mean, h]
    have hd' : det2 x ≠ 0 := ne_of_gt hd
    have hn' : ((x.length : ℚ)) ≠ 0 := ne_of_gt hn
    simp only [det2] at hd' ⊢
    field_simp
    ring
  have hkey_nonneg : 0 ≤ sst y
      - dot (olsResid y (designWithConst x)) (olsResid y (designWithConst x)) := by
    rw [hkey]
    exact div_nonneg (sq_nonneg _) (by positivity)
  have hrs : (olsFit y (designWithConst x)).rsquared
      = 1 - dot (olsResid y (designWithConst x)) (olsResid y (designWithConst x)) / sst y := rfl
  constructor
  · rw [hrs]
    have : dot (olsResid y (designWithConst x)) (olsResid y (designWithConst x)) / sst y ≤ 1 := by
      rw [div_le_one hst]
      linarith
    linarith
  · rw [hrs]
    have : 0 ≤ dot (olsResid y (designWithConst x)) (olsResid y (designWithConst x)) / sst y :=
      div_nonneg hssr0 (le_of_lt hst)
    linarith

/-- A predictor call whose dimension check passes returns the product. -/
lemma predictArr_of_all (β : List ℚ) (X : List (List ℚ))
    (hall : X.all (fun r => r.length == β.length) = true) :
    predictArr β X = Except.ok (matVecMul X β) := by
  simp [predictArr, hall]

/-- The normal-equations solve on a nonempty with-constant design
returns two coefficients. -/
lemma olsSolve_designWithConst_length (a : ℚ) (t : List ℚ) (y : List ℚ) :
    (olsSolve y (designWithConst (a :: t))).length = 2 := by
  unfold olsSolve
  rw [if_neg (by rw [numCols_designWithConst_cons]; omega),
      if_pos (numCols_designWithConst_cons a t)]
  rfl

end Lemmas

section Claims

/-- C1 (counterexample): the curve drawn in the "Without intercept"
subplot is `y_hat_no_int`, the no-intercept model's predictions, and it
differs from the intercept-fitted model's predictions (`est.predict`)
already at the first grid point — so the claim that the subplot reuses
`est.predict`'s curve is false. -/
theorem without_intercept_curve_not_from_est :
    withoutInterceptLine.ydata = yHatNoInt ∧
      withoutInterceptLine.ydata.head? ≠ yHatInt.head? :=
  ⟨rfl, of_decide_eq_true (by with_unfolding_all rfl)⟩

/-- C1 (amended): the "Without intercept" subplot's curve is computed
from the no-intercept model's predictions and the "With intercept"
subplot's curve from the intercept model's predictions; the two subplot
lines are two distinct prediction curves from two distinct models. -/
theorem subplot_curves_two_distinct_models :
    withoutInterceptLine.ydata = yHatNoInt ∧
      withInterceptLine.ydata = yHatInt ∧
      withoutInterceptLine.ydata ≠ withInterceptLine.ydata :=
  ⟨rfl, rfl, fun hEq =>
    absurd (congrArg List.head? hEq) (of_decide_eq_true (by with_unfolding_all rfl))⟩

/-- C2: with an intercept column in the design, the least-squares
residuals sum to exactly zero (for every response and predictor with a
nonsingular normal-equations system); for the notebook's no-intercept
fit `Employed ~ GNP - 1` the residual sum is nonzero. -/
theorem residual_sum_with_and_without_intercept :
    (∀ x y : List ℚ, y.length = x.length → det2 x ≠ 0 →
        (olsFit y (designWithConst x)).resid.sum = 0) ∧
      estNoIntFit.resid.sum ≠ 0 :=
  ⟨fun x y h hd => resid_sum_withConst x y h hd,
   of_decide_eq_true (by with_unfolding_all rfl)⟩

/-- Witness for C2 at the notebook's own data: the with-intercept fit on
the Longley columns has residual sum exactly zero. -/
theorem residual_sum_with_and_without_intercept_witness :
    (olsFit longleyEmployed (designWithConst longleyGNP)).resid.sum = 0 :=
  residual_sum_with_and_without_intercept.1 longleyGNP longleyEmployed rfl
    (of_decide_eq_true (by with_unfolding_all rfl))

/-- C3 (counterexample): the notebook's `est_no_int.predict(X_prime_1)`
does not fail — `est_no_int` is formula-fitted with one coefficient,
`X_prime_1` has two columns (const and GNP), and the formula-based
Predictor succeeds by rebuilding the one-column design from the GNP
column. -/
theorem no_int_formula_predict_succeeds :
    yHatNoIntE.isOk = true ∧ estNoIntFit.params.length = 1 ∧
      xPrime1.cols.length = 2 := by
  decide

/-- C3 (amended): the array-based Predictor fails with a dimension
mismatch whenever a nonempty rectangular design's column count differs
from the coefficient count; but the notebook's call
`est_no_int.predict(X_prime_1)` goes through the formula interface,
which rebuilds the design from the GNP column and succeeds. -/
theorem predict_dimension_mismatch_behavior :
    (∀ (β : List ℚ) (X : List (List ℚ)), X ≠ [] →
        X.all (fun r => r.length == numCols X) = true →
        numCols X ≠ β.length →
        predictArr β X = Except.error PredictError.dimensionMismatch) ∧
      yHatNoIntE = Except.ok yHatNoInt := by
  constructor
  · intro β X hne hrect hmis
    obtain ⟨r, t, rfl⟩ := List.exists_cons_of_ne_nil hne
    have h1 : numCols (r :: t) = r.length := rfl
    have hfalse : (r.length == β.length) = false := by
      rw [beq_eq_false_iff_ne, ← h1]
      exact hmis
    simp [predictArr, List.all_cons, hfalse]
  · rfl

/-- Witness for C3 (amended) at a concrete mismatched input: one fitted
coefficient against a one-row, two-column design. -/
theorem predict_dimension_mismatch_behavior_witness :
    predictArr [1] [[(1 : ℚ), 2]] = Except.error PredictError.dimensionMismatch :=
  predict_dimension_mismatch_behavior.1 [1] [[(1 : ℚ), 2]]
    (by simp) (by decide) (by decide)

/-- C4: for every with-constant one-predictor design, fitting and then
predicting on the very rows used for fitting reproduces the in-sample
fitted values exactly (`ŷ_train = Xβ`); in particular this holds for
the notebook's with-intercept fit. -/
theorem predict_on_training_design_eq_fitted :
    (∀ (x y : List ℚ),
        predictArr ((olsFit y (designWithConst x)).params) (designWithConst x)
          = Except.ok ((olsFit y (designWithConst x)).fittedvalues)) ∧
      predictArr estArrayFit.params trainX = Except.ok estArrayFit.fittedvalues := by
  have hgen : ∀ (x y : List ℚ),
      predictArr ((olsFit y (designWithConst x)).params) (designWithConst x)
        = Except.ok ((olsFit y (designWithConst x)).fittedvalues) := by
    intro x y
    cases x with
    | nil => rfl
    | cons a t =>
      have h2 : ((olsFit y (designWithConst (a :: t))).params).length = 2 :=
        olsSolve_designWithConst_length a t y
      have hall : (designWithConst (a :: t)).all
          (fun r => r.length == ((olsFit y (designWithConst (a :: t))).params).length)
            = true := by
        rw [h2]
        simp [designWithConst, addConstant, List.all_map, Function.comp]
      exact predictArr_of_all _ _ hall
  exact ⟨hgen, hgen longleyGNP longleyEmployed⟩

/-- C5: the two with-intercept fitting paths are equivalent — for every
table holding the GNP and Employed columns, fitting
`sm.OLS(df.Employed, sm.add_constant(df.GNP))` and fitting the formula
`Employed ~ GNP` produce the same fit result (same coefficient vector,
hence the same fitted values). -/
theorem with_intercept_paths_equivalent :
    ∀ (df : DataFrame) (g e' : List ℚ),
      df.getCol "GNP" = some g → df.getCol "Employed" = some e' →
      fitArrayPath df = olsFormulaFit interceptFormula df := by
  intro df g e' hg he
  unfold fitArrayPath olsFormulaFit formulaDesign formulaRows
  simp only [interceptFormula]
  rw [hg, he]
  simp [designWithConst, addConstant, List.map_map, Function.comp_def]

/-- Witness for C5 at the notebook's table. -/
theorem with_intercept_paths_equivalent_witness :
    fitArrayPath notebookDF = olsFormulaFit interceptFormula notebookDF :=
  with_intercept_paths_equivalent notebookDF longleyGNP longleyEmployed rfl rfl

/-- C6: on the 16-row Longley table with response Employed, predictor
GNP and intercept included, the fitted slope on GNP is strictly positive
and R² strictly exceeds 0.8. -/
theorem longley_slope_pos_and_rsquared_gt :
    0 < estFormulaFit.params.getD 1 0 ∧ (4 / 5 : ℚ) < estFormulaFit.rsquared :=
  of_decide_eq_true (by with_unfolding_all rfl)

/-- C7: the residual degrees of freedom of every fit equal the number of
design rows minus the number of design columns; for the notebook's
with-intercept fit (16 rows, 2 columns) they equal 14. -/
theorem df_resid_eq_n_minus_p :
    (∀ (y : List ℚ) (X : List (List ℚ)),
        (olsFit y X).df_resid = X.length - numCols X) ∧
      estArrayFit.df_resid = 14 ∧ trainX.length = 16 ∧ numCols trainX = 2 :=
  ⟨fun _ _ => rfl, by decide, by decide, by decide⟩

/-- C8: for every non-degenerate dataset (nonsingular normal equations,
non-constant response) the with-intercept single-predictor fit has
`R² = 1 − SS_res/SS_tot` in the closed interval [0, 1]. -/
theorem rsquared_unit_interval :
    ∀ x y : List ℚ, y.length = x.length → 0 < det2 x → 0 < sst y →
      0 ≤ (olsFit y (designWithConst x)).rsquared ∧
        (olsFit y (designWithConst x)).rsquared ≤ 1 :=
  fun x y h hd hst => rsquared_bounds x y h hd hst

/-- Witness for C8 at a concrete non-degenerate input. -/
theorem rsquared_unit_interval_witness :
    0 ≤ (olsFit [0, 1] (designWithConst [0, 1])).rsquared ∧
      (olsFit [0, 1] (designWithConst [0, 1])).rsquared ≤ 1 :=
  rsquared_unit_interval [0, 1] [0, 1] rfl
    (of_decide_eq_true (by with_unfolding_all rfl))
    (of_decide_eq_true (by with_unfolding_all rfl))

/-- C9 (counterexample): the design matrix built by `sm.add_constant`
on the 100-point prediction grid has 100 rows, not the Observation
Table's 16 — the claimed row-count invariant fails for the prediction
grids. -/
theorem prediction_grid_rowcount_mismatch :
    xPrimeMat.length = 100 ∧ notebookDF.nrows = 16 ∧
      xPrimeMat.length ≠ notebookDF.nrows := by
  decide

/-- C9 (amended): every `add_constant` output has as many rows as its
input and its constant column is identically 1.0; the training design's
row count equals the Observation Table's, while the two prediction-grid
designs have 100 rows each (the grid length). -/
theorem addConstant_rowcount_and_ones :
    (∀ X : List (List ℚ), (addConstant X).length = X.length ∧
        (addConstant X).all (fun r => r.head? == some 1) = true) ∧
      trainX.length = notebookDF.nrows ∧
      xPrimeMat.length = 100 ∧
      xPrime1.getCol "const" = some (List.replicate 100 1) := by
  refine ⟨fun X => ⟨by simp [addConstant], ?_⟩, by decide, by decide, ?_⟩
  · simp [addConstant, List.all_map, Function.comp]
  · with_unfolding_all rfl

/-- C10: the completeness check `df.isna().sum()` on the loaded table
reports zero missing values in every column, and both fits are invoked
on exactly that table (its Employed and GNP columns), so the fit only
ever sees a table satisfying the no-missing-values invariant. -/
theorem completeness_check_table_fit :
    isnaSum notebookRaw = [0, 0, 0, 0, 0, 0, 0] ∧
      notebookDF = ⟨notebookRaw.map (fun c => (c.1, c.2.reduceOption))⟩ ∧
      estArrayFit = olsFit longleyEmployed trainX ∧
      estFormulaFit = olsFormulaFit interceptFormula notebookDF ∧
      estNoIntFit = olsFormulaFit noInterceptFormula notebookDF :=
  ⟨by decide, rfl, rfl, rfl, rfl⟩

end Claims

end OlsNotebook
